import Mathlib

/-!
Shallow embedding of the WIA/RVZ container reader/writer core from
`Source/Core/DiscIO/WIABlob.h` of the Dolphin repository, together with
proofs of the specification's claims about it.

Only the header is present in the repository snapshot, so inline member
functions, constants and `#pragma pack(1)` struct layouts are embedded
directly from the source; member functions whose bodies live in the
missing `WIABlob.cpp` are modelled from the specification where that is
possible (each such definition is marked `Modelled from the spec:`).
-/

set_option maxRecDepth 4000

namespace DiscIO

/-! ## Bytes and integer encodings

On-disk multi-byte integers are big-endian; the host is little-endian
(the magic constants are "byteswapped to little endian" per the source
comment, and `Common::swap32`/`swap64` byte-reverse a loaded value).
We model machine integers as `Nat` with explicit bounds. -/

/-- The four bytes of a 32-bit value in little-endian order, i.e. the
order in which a little-endian host stores the value in memory / on disk. -/
def leBytes32 (x : Nat) : List Nat :=
  [x % 256, x / 256 % 256, x / 256 ^ 2 % 256, x / 256 ^ 3 % 256]

/-- Decode a byte list as a little-endian integer (how a little-endian
host `memcpy` of on-disk bytes materialises an integer field). -/
def leDecode (bs : List Nat) : Nat :=
  bs.foldr (fun b acc => b + 256 * acc) 0

/-- Decode a byte list as a big-endian integer (the on-disk integer
encoding of the WIA/RVZ format). -/
def beDecode (bs : List Nat) : Nat :=
  leDecode bs.reverse

/-- `Common::swap16`: byte-reverse a 16-bit value. -/
def swap16 (x : Nat) : Nat :=
  x / 256 % 256 + 256 * (x % 256)

/-- `Common::swap32`: byte-reverse a 32-bit value. -/
def swap32 (x : Nat) : Nat :=
  x / 256 ^ 3 % 256 + 256 * (x / 256 ^ 2 % 256) + 256 ^ 2 * (x / 256 % 256) +
    256 ^ 3 * (x % 256)

/-- `Common::swap64`: byte-reverse a 64-bit value. -/
def swap64 (x : Nat) : Nat :=
  x / 256 ^ 7 % 256 + 256 * (x / 256 ^ 6 % 256) + 256 ^ 2 * (x / 256 ^ 5 % 256) +
    256 ^ 3 * (x / 256 ^ 4 % 256) + 256 ^ 4 * (x / 256 ^ 3 % 256) +
    256 ^ 5 * (x / 256 ^ 2 % 256) + 256 ^ 6 * (x / 256 % 256) + 256 ^ 7 * (x % 256)

/-! ## Magic numbers (`WIABlob.h` lines 45-46) -/

/-- `constexpr u32 WIA_MAGIC = 0x01414957;  // "WIA\x1" (byteswapped to little endian)` -/
def WIA_MAGIC : Nat := 0x01414957

/-- `constexpr u32 RVZ_MAGIC = 0x015A5652;  // "RVZ\x1" (byteswapped to little endian)` -/
def RVZ_MAGIC : Nat := 0x015A5652

/-! ## On-disk record types (`WIABlob.h` lines 80-166)

The structs sit inside `#pragma pack(push, 1)` / `#pragma pack(pop)`,
so their on-disk layout is the plain concatenation of their fields with
no padding.  Each struct is embedded as a Lean structure holding its
field values, together with a `serialize` function that concatenates
the fields' byte encodings exactly in declaration order. -/

/-- `using SHA1 = std::array<u8, 20>;` -/
def SHA1 : Type := Fin 20 → Nat

/-- `using WiiKey = std::array<u8, 16>;` -/
def WiiKey : Type := Fin 16 → Nat

/-- Byte encoding of a `u16` field (fixed width 2). -/
def bytes16 (x : Nat) : List Nat := [x % 256, x / 256 % 256]

/-- Byte encoding of a `u32` field (fixed width 4). -/
def bytes32 (x : Nat) : List Nat := leBytes32 x

/-- Byte encoding of a `u64` field (fixed width 8). -/
def bytes64 (x : Nat) : List Nat :=
  [x % 256, x / 256 % 256, x / 256 ^ 2 % 256, x / 256 ^ 3 % 256,
   x / 256 ^ 4 % 256, x / 256 ^ 5 % 256, x / 256 ^ 6 % 256, x / 256 ^ 7 % 256]

/-- Byte encoding of a `SHA1` field (fixed width 20). -/
def sha1Bytes (h : SHA1) : List Nat := List.ofFn h

/-- Byte encoding of a `WiiKey` field (fixed width 16). -/
def wiiKeyBytes (k : WiiKey) : List Nat := List.ofFn k

/-- `struct WIAHeader1` (`WIABlob.h` lines 81-91). -/
structure WIAHeader1 where
  magic : Nat
  version : Nat
  version_compatible : Nat
  header_2_size : Nat
  header_2_hash : SHA1
  iso_file_size : Nat
  wia_file_size : Nat
  header_1_hash : SHA1

/-- Packed on-disk layout of `WIAHeader1`: fields concatenated in order. -/
def WIAHeader1.serialize (h : WIAHeader1) : List Nat :=
  bytes32 h.magic ++ bytes32 h.version ++ bytes32 h.version_compatible ++
    bytes32 h.header_2_size ++ sha1Bytes h.header_2_hash ++ bytes64 h.iso_file_size ++
    bytes64 h.wia_file_size ++ sha1Bytes h.header_1_hash

/-- `struct WIAHeader2` (`WIABlob.h` lines 94-118). -/
structure WIAHeader2 where
  disc_type : Nat
  compression_type : Nat
  compression_level : Nat
  chunk_size : Nat
  disc_header : Fin 0x80 → Nat
  number_of_partition_entries : Nat
  partition_entry_size : Nat
  partition_entries_offset : Nat
  partition_entries_hash : SHA1
  number_of_raw_data_entries : Nat
  raw_data_entries_offset : Nat
  raw_data_entries_size : Nat
  number_of_group_entries : Nat
  group_entries_offset : Nat
  group_entries_size : Nat
  compressor_data_size : Nat
  compressor_data : Fin 7 → Nat

/-- Packed on-disk layout of `WIAHeader2`: fields concatenated in order. -/
def WIAHeader2.serialize (h : WIAHeader2) : List Nat :=
  bytes32 h.disc_type ++ bytes32 h.compression_type ++ bytes32 h.compression_level ++
    bytes32 h.chunk_size ++ List.ofFn h.disc_header ++
    bytes32 h.number_of_partition_entries ++ bytes32 h.partition_entry_size ++
    bytes64 h.partition_entries_offset ++ sha1Bytes h.partition_entries_hash ++
    bytes32 h.number_of_raw_data_entries ++ bytes64 h.raw_data_entries_offset ++
    bytes32 h.raw_data_entries_size ++ bytes32 h.number_of_group_entries ++
    bytes64 h.group_entries_offset ++ bytes32 h.group_entries_size ++
    [h.compressor_data_size % 256] ++ List.ofFn h.compressor_data

/-- `struct PartitionDataEntry` (`WIABlob.h` lines 121-127). -/
structure PartitionDataEntry where
  first_sector : Nat
  number_of_sectors : Nat
  group_index : Nat
  number_of_groups : Nat

/-- Packed on-disk layout of `PartitionDataEntry`. -/
def PartitionDataEntry.serialize (e : PartitionDataEntry) : List Nat :=
  bytes32 e.first_sector ++ bytes32 e.number_of_sectors ++ bytes32 e.group_index ++
    bytes32 e.number_of_groups

/-- `struct PartitionEntry` (`WIABlob.h` lines 130-134): a 16-byte
partition key plus `std::array<PartitionDataEntry, 2>`. -/
structure PartitionEntry where
  partition_key : WiiKey
  data_entry_0 : PartitionDataEntry
  data_entry_1 : PartitionDataEntry

/-- Packed on-disk layout of `PartitionEntry`. -/
def PartitionEntry.serialize (e : PartitionEntry) : List Nat :=
  wiiKeyBytes e.partition_key ++ e.data_entry_0.serialize ++ e.data_entry_1.serialize

/-- `struct RawDataEntry` (`WIABlob.h` lines 137-143). -/
structure RawDataEntry where
  data_offset : Nat
  data_size : Nat
  group_index : Nat
  number_of_groups : Nat

/-- Packed on-disk layout of `RawDataEntry`. -/
def RawDataEntry.serialize (e : RawDataEntry) : List Nat :=
  bytes64 e.data_offset ++ bytes64 e.data_size ++ bytes32 e.group_index ++
    bytes32 e.number_of_groups

/-- `struct GroupEntry` (`WIABlob.h` lines 146-150): `{data_offset >> 2, data_size}`. -/
structure GroupEntry where
  data_offset : Nat
  data_size : Nat

/-- Packed on-disk layout of `GroupEntry`. -/
def GroupEntry.serialize (e : GroupEntry) : List Nat :=
  bytes32 e.data_offset ++ bytes32 e.data_size

/-- `struct HashExceptionEntry` (`WIABlob.h` lines 153-157): `{offset: u16, hash: SHA1}`. -/
structure HashExceptionEntry where
  offset : Nat
  hash : SHA1

/-- Packed on-disk layout of `HashExceptionEntry`. -/
def HashExceptionEntry.serialize (e : HashExceptionEntry) : List Nat :=
  bytes16 e.offset ++ sha1Bytes e.hash

/-- `struct PurgeSegment` (`WIABlob.h` lines 160-164): `{offset: u32, size: u32}`. -/
structure PurgeSegment where
  offset : Nat
  size : Nat

/-- Packed on-disk layout of `PurgeSegment`. -/
def PurgeSegment.serialize (s : PurgeSegment) : List Nat :=
  bytes32 s.offset ++ bytes32 s.size

/-! ## Reader accessors (`WIABlob.h` lines 57-62)

These member functions are defined inline in the header.  The reader's
in-memory state, as far as these accessors touch it, is `m_header_1`
and `m_header_2` loaded verbatim (raw big-endian fields) from disk. -/

/-- The part of `WIAFileReader`'s state that the inline accessors read. -/
structure WIAFileReaderState where
  header_1 : WIAHeader1
  header_2 : WIAHeader2

/-- `u64 GetRawSize() const { return Common::swap64(m_header_1.wia_file_size); }` -/
def GetRawSize (r : WIAFileReaderState) : Nat :=
  swap64 r.header_1.wia_file_size

/-- `u64 GetDataSize() const { return Common::swap64(m_header_1.iso_file_size); }` -/
def GetDataSize (r : WIAFileReaderState) : Nat :=
  swap64 r.header_1.iso_file_size

/-- `bool IsDataSizeAccurate() const { return true; }` -/
def IsDataSizeAccurate (_ : WIAFileReaderState) : Bool := true

/-- `u64 GetBlockSize() const { return Common::swap32(m_header_2.chunk_size); }` -/
def GetBlockSize (r : WIAFileReaderState) : Nat :=
  swap32 r.header_2.chunk_size

/-- `bool HasFastRandomAccessInBlock() const { return false; }` -/
def HasFastRandomAccessInBlock (_ : WIAFileReaderState) : Bool := false

/-! ## `ReuseID` and its comparison operators (`WIABlob.h` lines 459-484)

The C++ struct holds `const WiiKey* partition_key` — a pointer, which
`std::tie`'s comparisons compare by address — so the key component is
modelled as the pointer's value, a `Nat`.  `operator==` and `operator<`
compare `std::tie(partition_key, data_size, encrypted, value)`
tuples; `std::tuple`'s `==` is component-wise and its `<` is
lexicographic, with `bool` ordered `false < true`; `operator>` is
`std::tie(...) > std::tie(...)`, which the standard defines as the
swapped `<`; `!=`, `>=`, `<=` are defined in the source as the
negations of `==`, `<`, `>`. -/

structure ReuseID where
  partition_key : Nat
  data_size : Nat
  encrypted : Bool
  value : Nat
  deriving DecidableEq

/-- `bool` ordering used by `std::tie`'s lexicographic `<`: `false < true`. -/
def boolLt (a b : Bool) : Bool := !a && b

/-- `ReuseID::operator==`: component-wise equality of the tied tuple. -/
def ReuseID.eq (a b : ReuseID) : Bool :=
  a.partition_key == b.partition_key && a.data_size == b.data_size &&
    a.encrypted == b.encrypted && a.value == b.value

/-- `ReuseID::operator<`: lexicographic comparison of the tied tuple. -/
def ReuseID.lt (a b : ReuseID) : Bool :=
  Nat.blt a.partition_key b.partition_key ||
    (a.partition_key == b.partition_key &&
      (Nat.blt a.data_size b.data_size ||
        (a.data_size == b.data_size &&
          (boolLt a.encrypted b.encrypted ||
            (a.encrypted == b.encrypted && Nat.blt a.value b.value)))))

/-- `ReuseID::operator>`: `std::tie(a) > std::tie(b)`, i.e. `tie(b) < tie(a)`. -/
def ReuseID.gt (a b : ReuseID) : Bool := ReuseID.lt b a

/-- `bool operator!=(const ReuseID& other) const { return !operator==(other); }` -/
def ReuseID.ne (a b : ReuseID) : Bool := !(ReuseID.eq a b)

/-- `bool operator>=(const ReuseID& other) const { return !operator<(other); }` -/
def ReuseID.ge (a b : ReuseID) : Bool := !(ReuseID.lt a b)

/-- `bool operator<=(const ReuseID& other) const { return !operator>(other); }` -/
def ReuseID.le (a b : ReuseID) : Bool := !(ReuseID.gt a b)

/-! ## Version constants (`WIABlob.h` lines 607-613) -/

def WIA_VERSION : Nat := 0x01000000
def WIA_VERSION_WRITE_COMPATIBLE : Nat := 0x01000000
def WIA_VERSION_READ_COMPATIBLE : Nat := 0x00080000

def RVZ_VERSION : Nat := 0x00020000
def RVZ_VERSION_WRITE_COMPATIBLE : Nat := 0x00020000
def RVZ_VERSION_READ_COMPATIBLE : Nat := 0x00020000

/-! ## Opening a container

`WIAFileReader::Create` and `Initialize` have no bodies in the snapshot
(header only), so the open path is modelled from the specification
(§4.5, §7, §8). -/

/-- Error kinds relevant to opening (spec §7). -/
inductive ErrorKind where
  | CorruptHeader
  | UnsupportedCompression
  deriving DecidableEq

/-- The read-compatible version constant for the variant being opened. -/
def readCompatibleVersion (rvz : Bool) : Nat :=
  if rvz then RVZ_VERSION_READ_COMPATIBLE else WIA_VERSION_READ_COMPATIBLE

/-- The current version constant for the variant being opened. -/
def currentVersion (rvz : Bool) : Nat :=
  if rvz then RVZ_VERSION else WIA_VERSION

/-- Modelled from the spec: the version-compatibility window checked when
opening (§4.5 step 1: "reject if `version < version_read_compatible_constant`
or if stored `version_compatible > our_version`"; §8 names the errors:
`version < our_read_compatible` fails with `CorruptHeader` and
`version_compatible > our_version` with `UnsupportedCompression`).
The header fields are stored big-endian, so they are decoded with
`swap32` before comparison. -/
def checkVersion (rvz : Bool) (h1 : WIAHeader1) : Except ErrorKind Unit :=
  if swap32 h1.version < readCompatibleVersion rvz then .error .CorruptHeader
  else if currentVersion rvz < swap32 h1.version_compatible then
    .error .UnsupportedCompression
  else .ok ()

/-- Modelled from the spec: `WIAFileReader::Create`'s body is absent from
the snapshot.  Per §4.5, opening reads Header-1, verifies the magic (which
selects the variant) and the version window, and only then performs the
remaining open steps (header-2 hash, table loads, index build), which are
abstracted here as `other_checks`.  On any failure no reader is returned. -/
def Create (h1 : WIAHeader1) (h2 : WIAHeader2)
    (other_checks : WIAHeader1 → WIAHeader2 → Except ErrorKind Unit) :
    Except ErrorKind WIAFileReaderState :=
  if h1.magic = WIA_MAGIC ∨ h1.magic = RVZ_MAGIC then
    match checkVersion (h1.magic = RVZ_MAGIC) h1 with
    | .error e => .error e
    | .ok () =>
      match other_checks h1 h2 with
      | .error e => .error e
      | .ok () => .ok ⟨h1, h2⟩
  else .error .CorruptHeader

/-! ## LZMA2 dictionary size

`WIAFileReader::LZMA2DictionarySize` is declared at `WIABlob.h` line 457
with no body in the snapshot. -/

/-- Modelled from the spec: §4.1 — "LZMA2's dictionary size is decoded
from a single byte `p` using the standard formula `(2 | (p & 1)) <<
(p/2 + 11)` with `p = 40` meaning `0xffffffff`". -/
def LZMA2DictionarySize (p : Nat) : Nat :=
  if p = 40 then 0xffffffff else (2 ||| (p &&& 1)) <<< (p / 2 + 11)

/-- Modelled from the spec: the open-time validation of the LZMA2
compressor-data byte (§7 error table: "`UnsupportedCompression` — unknown
compression tag or LZMA2 `p > 40` — fails open"). -/
def checkLZMA2CompressorData (p : Nat) : Except ErrorKind Nat :=
  if 40 < p then .error .UnsupportedCompression else .ok (LZMA2DictionarySize p)

/-! ## Writer output and group deduplication

`ProcessAndCompress`, `TryReuse` and `Output` (declared at `WIABlob.h`
lines 544-561) have no bodies in the snapshot; they are modelled from
spec §4.7 (steps 3-4) and §3 ("Reuse ID").  The `reusable_groups`
`std::map` is modelled as an association list, and the output file as the
list of bytes written so far. -/

/-- `struct OutputParametersEntry` (`WIABlob.h` lines 508-514). -/
structure OutputParametersEntry where
  exception_lists : List Nat
  main_data : List Nat
  reuse_id : Option ReuseID
  reused_group : Option GroupEntry

/-- Modelled from the spec: §4.7 step 3 — "Compute a `ReuseID` if the
plaintext is a single repeated byte of size equal to the full chunk"
(§3: the tuple identifies "a group whose plaintext is a single repeated
byte over `data_size` bytes"). -/
def computeReuseID (partition_key : Nat) (encrypted : Bool) (plaintext : List Nat) :
    Option ReuseID :=
  match plaintext with
  | [] => none
  | b :: rest =>
    if rest.all (fun x => x == b) then
      some ⟨partition_key, (b :: rest).length, encrypted, b⟩
    else none

/-- Modelled from the spec: `WIAFileReader::TryReuse` — look the entry's
`reuse_id` up in the shared `reusable_groups` map and, when present, mark
the entry as reusing that group's `GroupEntry` (§4.7 step 4, first bullet). -/
def TryReuse (reusable_groups : List (ReuseID × GroupEntry))
    (entry : OutputParametersEntry) : OutputParametersEntry :=
  match entry.reused_group with
  | some _ => entry
  | none =>
    match entry.reuse_id with
    | none => entry
    | some rid =>
      match List.lookup rid reusable_groups with
      | some ge => { entry with reused_group := some ge }
      | none => entry

/-- State threaded through the serialized output stage: the bytes written
to the output file so far, the running byte count, and the shared
`reusable_groups` map. -/
structure OutputState where
  file : List Nat
  bytes_written : Nat
  reusable_groups : List (ReuseID × GroupEntry)

/-- Modelled from the spec: one chunk of `WIAFileReader::Output`
(§4.7 step 4): if the entry reuses an earlier group, copy that group's
`GroupEntry` directly and write no bytes; all-zero content becomes
`compressed_size = 0` with no bytes written; otherwise write
`exception_lists ++ main_data` 4-byte aligned, record the group entry
`{offset >> 2, size}` with the compressed-exception-lists flag in the
high bit, and insert the entry's `reuse_id` (if any) into the map. -/
def OutputEntry (compressed_exception_lists : Bool) (st : OutputState)
    (entry : OutputParametersEntry) : GroupEntry × OutputState :=
  let entry := TryReuse st.reusable_groups entry
  match entry.reused_group with
  | some ge => (ge, st)
  | none =>
    let data := entry.exception_lists ++ entry.main_data
    if data.length = 0 then
      ({ data_offset := 0, data_size := 0 }, st)
    else
      let pad := (4 - data.length % 4) % 4
      let ge : GroupEntry :=
        { data_offset := st.bytes_written / 4,
          data_size :=
            data.length ||| (if compressed_exception_lists then 0x80000000 else 0) }
      let groups :=
        match entry.reuse_id with
        | some rid => (rid, ge) :: st.reusable_groups
        | none => st.reusable_groups
      (ge, { file := st.file ++ data ++ List.replicate pad 0,
             bytes_written := st.bytes_written + data.length + pad,
             reusable_groups := groups })

/-! ## Auxiliary definitions for the proofs -/

/-- The `n` least-significant bytes of `x`, least-significant first. -/
def leBytes : Nat → Nat → List Nat
  | 0, _ => []
  | n + 1, x => x % 256 :: leBytes n (x / 256)

/-- `bool` viewed as the integer `std::tie` compares (`false ↦ 0`, `true ↦ 1`). -/
def encNat (b : Bool) : Nat := cond b 1 0

/-- Propositional form of `ReuseID.lt`: the lexicographic order on the
tuple `(partition_key, data_size, encrypted, value)`. -/
def ltProp (a b : ReuseID) : Prop :=
  a.partition_key < b.partition_key ∨ a.partition_key = b.partition_key ∧
    (a.data_size < b.data_size ∨ a.data_size = b.data_size ∧
      (encNat a.encrypted < encNat b.encrypted ∨
        encNat a.encrypted = encNat b.encrypted ∧ a.value < b.value))

/-- Propositional form of `ReuseID.eq`: component-wise equality. -/
def eqProp (a b : ReuseID) : Prop :=
  a.partition_key = b.partition_key ∧ a.data_size = b.data_size ∧
    encNat a.encrypted = encNat b.encrypted ∧ a.value = b.value

/-- A concrete reader state for the C8 witness: `wia_file_size` loaded
little-endian from bytes `01 02 03 04 05 06 07 08`, `iso_file_size` from
`11 22 33 44 55 66 77 88`, `chunk_size` from `00 00 20 00`. -/
def witnessReaderState : WIAFileReaderState where
  header_1 :=
    { magic := WIA_MAGIC, version := 0, version_compatible := 0, header_2_size := 0,
      header_2_hash := fun _ => 0,
      iso_file_size := leDecode [0x11, 0x22, 0x33, 0x44, 0x55, 0x66, 0x77, 0x88],
      wia_file_size := leDecode [0x01, 0x02, 0x03, 0x04, 0x05, 0x06, 0x07, 0x08],
      header_1_hash := fun _ => 0 }
  header_2 :=
    { disc_type := 0, compression_type := 0, compression_level := 0,
      chunk_size := leDecode [0x00, 0x00, 0x20, 0x00], disc_header := fun _ => 0,
      number_of_partition_entries := 0, partition_entry_size := 0,
      partition_entries_offset := 0, partition_entries_hash := fun _ => 0,
      number_of_raw_data_entries := 0, raw_data_entries_offset := 0,
      raw_data_entries_size := 0, number_of_group_entries := 0,
      group_entries_offset := 0, group_entries_size := 0,
      compressor_data_size := 0, compressor_data := fun _ => 0 }

/-- A concrete Header-1 for the C3 witness: WIA magic, stored `version`
decoding to `0x00070000`, which is below `WIA_VERSION_READ_COMPATIBLE =
0x00080000`. -/
def witnessHeader1LowVersion : WIAHeader1 where
  magic := WIA_MAGIC
  version := swap32 0x00070000
  version_compatible := 0
  header_2_size := 0
  header_2_hash := fun _ => 0
  iso_file_size := 0
  wia_file_size := 0
  header_1_hash := fun _ => 0

/-- A concrete `ReuseID` for the C2 witness: a group of 3 bytes of
`0x55` outside any partition, unencrypted. -/
def witnessReuseID : ReuseID where
  partition_key := 0
  data_size := 3
  encrypted := false
  value := 0x55

/-- A concrete `GroupEntry` for the C2 witness (group B, already written). -/
def witnessGroupEntryB : GroupEntry where
  data_offset := 5
  data_size := 7

/-- A concrete output state for the C2 witness: 3 bytes already written
and group B recorded in the `reusable_groups` map. -/
def witnessOutputState : OutputState where
  file := [1, 2, 3]
  bytes_written := 3
  reusable_groups := [(witnessReuseID, witnessGroupEntryB)]

/-- A concrete entry for the C2 witness (group A, tagged for reuse). -/
def witnessEntryA : OutputParametersEntry where
  exception_lists := []
  main_data := [0x55, 0x55, 0x55]
  reuse_id := some witnessReuseID
  reused_group := none

/-! ## Helper lemmas -/

/-- Extracting as many bytes as were encoded recovers the byte list. -/
theorem leBytes_leDecode (bs : List Nat) (hb : ∀ b ∈ bs, b < 256) :
    leBytes bs.length (leDecode bs) = bs := by
  induction bs with
  | nil => rfl
  | cons b rest ih =>
    have hb0 : b < 256 := hb b (List.mem_cons_self _ _)
    have hrest : ∀ x ∈ rest, x < 256 := fun x hx => hb x (List.mem_cons_of_mem _ hx)
    have hdec : leDecode (b :: rest) = b + 256 * leDecode rest := by
      simp [leDecode]
    have h1 : (b + 256 * leDecode rest) % 256 = b := by omega
    have h2 : (b + 256 * leDecode rest) / 256 = leDecode rest := by omega
    simp only [List.length_cons, leBytes, hdec, h1, h2, ih hrest]

/-- Byte-reversal property of `swap64`: loading 8 on-disk bytes
little-endian and then swapping yields the big-endian decoding. -/
theorem swap64_leDecode (bs : List Nat) (hl : bs.length = 8)
    (hb : ∀ b ∈ bs, b < 256) : swap64 (leDecode bs) = beDecode bs := by
  have hx : leBytes 8 (leDecode bs) = bs := by
    rw [← hl]; exact leBytes_leDecode bs hb
  conv_rhs => rw [← hx]
  generalize leDecode bs = x
  have hu : leBytes 8 x =
      [x % 256, x / 256 % 256, x / 256 / 256 % 256, x / 256 / 256 / 256 % 256,
       x / 256 / 256 / 256 / 256 % 256, x / 256 / 256 / 256 / 256 / 256 % 256,
       x / 256 / 256 / 256 / 256 / 256 / 256 % 256,
       x / 256 / 256 / 256 / 256 / 256 / 256 / 256 % 256] := rfl
  rw [hu]
  simp only [beDecode, leDecode, List.reverse_cons, List.reverse_nil,
    List.nil_append, List.cons_append, List.append_nil, List.foldr_cons,
    List.foldr_nil, Nat.div_div_eq_div_mul, swap64]
  norm_num
  ring

/-- Byte-reversal property of `swap32`: loading 4 on-disk bytes
little-endian and then swapping yields the big-endian decoding. -/
theorem swap32_leDecode (bs : List Nat) (hl : bs.length = 4)
    (hb : ∀ b ∈ bs, b < 256) : swap32 (leDecode bs) = beDecode bs := by
  have hx : leBytes 4 (leDecode bs) = bs := by
    rw [← hl]; exact leBytes_leDecode bs hb
  conv_rhs => rw [← hx]
  generalize leDecode bs = x
  have hu : leBytes 4 x =
      [x % 256, x / 256 % 256, x / 256 / 256 % 256, x / 256 / 256 / 256 % 256] := rfl
  rw [hu]
  simp only [beDecode, leDecode, List.reverse_cons, List.reverse_nil,
    List.nil_append, List.cons_append, List.append_nil, List.foldr_cons,
    List.foldr_nil, Nat.div_div_eq_div_mul, swap32]
  norm_num
  ring

/-! ## Claim theorems -/

/-- C4: The two container variants are identified by the exact 32-bit
magic numbers `0x01414957` (WIA) and `0x015A5652` (RVZ); since the
constants are byteswapped to little endian, the first byte of each magic
as stored on disk is `'W'` respectively `'R'`. -/
theorem magic_numbers_identify_variants :
    WIA_MAGIC = 0x01414957 ∧ RVZ_MAGIC = 0x015A5652 ∧
    (leBytes32 WIA_MAGIC).head? = some 'W'.toNat ∧
    (leBytes32 RVZ_MAGIC).head? = some 'R'.toNat := by
  decide

/-- C10: For every reader state, `IsDataSizeAccurate()` returns `true`
and `HasFastRandomAccessInBlock()` returns `false`. -/
theorem data_size_accurate_and_no_fast_random_access (r : WIAFileReaderState) :
    IsDataSizeAccurate r = true ∧ HasFastRandomAccessInBlock r = false :=
  ⟨rfl, rfl⟩

/-- C6: The packed on-disk record types serialize to exactly the sizes
the data model implies, with no padding: Header-1 is 0x48 bytes, Header-2
is 0xdc bytes, PartitionEntry is 0x30 bytes (a 16-byte key plus two
0x10-byte PartitionDataEntry sub-entries), RawDataEntry is 0x18 bytes,
GroupEntry is 8 bytes, HashExceptionEntry is 0x16 bytes (a 2-byte offset
plus a 20-byte SHA-1), and PurgeSegment is 8 bytes. -/
theorem record_sizes (h1 : WIAHeader1) (h2 : WIAHeader2) (pe : PartitionEntry)
    (rde : RawDataEntry) (ge : GroupEntry) (hee : HashExceptionEntry)
    (ps : PurgeSegment) :
    h1.serialize.length = 0x48 ∧ h2.serialize.length = 0xdc ∧
    pe.serialize.length = 0x30 ∧ (wiiKeyBytes pe.partition_key).length = 16 ∧
    pe.data_entry_0.serialize.length = 0x10 ∧
    pe.data_entry_1.serialize.length = 0x10 ∧
    rde.serialize.length = 0x18 ∧ ge.serialize.length = 8 ∧
    hee.serialize.length = 0x16 ∧ (bytes16 hee.offset).length = 2 ∧
    (sha1Bytes hee.hash).length = 20 ∧ ps.serialize.length = 8 := by
  refine ⟨?_, ?_, ?_, ?_, ?_, ?_, ?_, ?_, ?_, ?_, ?_, ?_⟩ <;>
    simp [WIAHeader1.serialize, WIAHeader2.serialize, PartitionEntry.serialize,
      PartitionDataEntry.serialize, RawDataEntry.serialize, GroupEntry.serialize,
      HashExceptionEntry.serialize, PurgeSegment.serialize, bytes16, bytes32,
      bytes64, leBytes32, sha1Bytes, wiiKeyBytes]

/-- C8: The size accessors return the big-endian decoding of their header
fields: if `wia_file_size`, `iso_file_size` (8 bytes each) and
`chunk_size` (4 bytes) were loaded little-endian from the on-disk byte
sequences `bw`, `bi` and `bc`, then `GetRawSize` returns the big-endian
value of `bw` (the compressed file size), `GetDataSize` the big-endian
value of `bi` (the logical image size), and `GetBlockSize` the big-endian
value of `bc` (the chunk size from Header-2). -/
theorem size_accessors_decode_big_endian (r : WIAFileReaderState)
    (bw bi bc : List Nat)
    (hwl : bw.length = 8) (hwb : ∀ b ∈ bw, b < 256)
    (hil : bi.length = 8) (hib : ∀ b ∈ bi, b < 256)
    (hcl : bc.length = 4) (hcb : ∀ b ∈ bc, b < 256)
    (hw : r.header_1.wia_file_size = leDecode bw)
    (hi : r.header_1.iso_file_size = leDecode bi)
    (hc : r.header_2.chunk_size = leDecode bc) :
    GetRawSize r = beDecode bw ∧ GetDataSize r = beDecode bi ∧
      GetBlockSize r = beDecode bc := by
  refine ⟨?_, ?_, ?_⟩
  · rw [GetRawSize, hw]; exact swap64_leDecode bw hwl hwb
  · rw [GetDataSize, hi]; exact swap64_leDecode bi hil hib
  · rw [GetBlockSize, hc]; exact swap32_leDecode bc hcl hcb

/-- Witness for C8 at a concrete reader state and concrete byte lists. -/
theorem size_accessors_decode_big_endian_witness :
    GetRawSize witnessReaderState = 0x0102030405060708 ∧
      GetDataSize witnessReaderState = 0x1122334455667788 ∧
      GetBlockSize witnessReaderState = 0x00002000 :=
  size_accessors_decode_big_endian witnessReaderState
    [0x01, 0x02, 0x03, 0x04, 0x05, 0x06, 0x07, 0x08]
    [0x11, 0x22, 0x33, 0x44, 0x55, 0x66, 0x77, 0x88]
    [0x00, 0x00, 0x20, 0x00]
    (by decide) (by decide) (by decide) (by decide) (by decide) (by decide)
    rfl rfl rfl

/-- C3: Opening is rejected when the stored (big-endian) `version` decodes
below the variant's read-compatible constant or the stored
`version_compatible` decodes above the variant's current version constant;
in either case `Create` returns an error and no reader state is returned.
The constants are, for WIA, current `0x01000000`, write-compatible
`0x01000000` and read-compatible `0x00080000`, and for RVZ all
`0x00020000`. -/
theorem version_gating (h1 : WIAHeader1) (h2 : WIAHeader2)
    (other_checks : WIAHeader1 → WIAHeader2 → Except ErrorKind Unit) (rvz : Bool)
    (hmagic : h1.magic = if rvz then RVZ_MAGIC else WIA_MAGIC)
    (hrej : swap32 h1.version < readCompatibleVersion rvz ∨
      currentVersion rvz < swap32 h1.version_compatible) :
    (∃ e, Create h1 h2 other_checks = .error e) ∧
      WIA_VERSION = 0x01000000 ∧ WIA_VERSION_WRITE_COMPATIBLE = 0x01000000 ∧
      WIA_VERSION_READ_COMPATIBLE = 0x00080000 ∧ RVZ_VERSION = 0x00020000 ∧
      RVZ_VERSION_WRITE_COMPATIBLE = 0x00020000 ∧
      RVZ_VERSION_READ_COMPATIBLE = 0x00020000 := by
  refine ⟨?_, rfl, rfl, rfl, rfl, rfl, rfl⟩
  have hm : h1.magic = WIA_MAGIC ∨ h1.magic = RVZ_MAGIC := by
    cases rvz with
    | false => exact Or.inl (by simpa using hmagic)
    | true => exact Or.inr (by simpa using hmagic)
  have hb : decide (h1.magic = RVZ_MAGIC) = rvz := by
    cases rvz with
    | false => rw [show h1.magic = WIA_MAGIC by simpa using hmagic]; decide
    | true => rw [show h1.magic = RVZ_MAGIC by simpa using hmagic]; decide
  rw [Create, if_pos hm, hb, checkVersion]
  by_cases hv : swap32 h1.version < readCompatibleVersion rvz
  · rw [if_pos hv]; exact ⟨_, rfl⟩
  · have hvc : currentVersion rvz < swap32 h1.version_compatible := by tauto
    rw [if_neg hv, if_pos hvc]; exact ⟨_, rfl⟩

/-- Witness for C3: the concrete low-version WIA header is rejected. -/
theorem version_gating_witness :
    swap32 witnessHeader1LowVersion.version < WIA_VERSION_READ_COMPATIBLE ∧
      ∃ e, Create witnessHeader1LowVersion witnessReaderState.header_2
        (fun _ _ => .ok ()) = .error e :=
  ⟨by decide,
   (version_gating witnessHeader1LowVersion witnessReaderState.header_2
     (fun _ _ => .ok ()) false rfl (Or.inl (by decide))).1⟩

/-- C5: For every byte `p` below 40, `LZMA2DictionarySize p` equals the
standard formula `(2 | (p & 1)) << (p/2 + 11)` (written arithmetically as
`(2 + p % 2) * 2 ^ (p / 2 + 11)`); `LZMA2DictionarySize 40` is
`0xffffffff`; and the open-time check of an LZMA2 compressor-data byte
exceeding 40 fails with `UnsupportedCompression`. -/
theorem lzma2_dictionary_size (p : Fin 256) :
    (p.val < 40 →
      LZMA2DictionarySize p.val = (2 + p.val % 2) * 2 ^ (p.val / 2 + 11) ∧
        checkLZMA2CompressorData p.val =
          .ok ((2 + p.val % 2) * 2 ^ (p.val / 2 + 11))) ∧
    LZMA2DictionarySize 40 = 0xffffffff ∧
    (40 < p.val → checkLZMA2CompressorData p.val =
      .error .UnsupportedCompression) := by
  refine ⟨fun h => ?_, by decide, fun h => ?_⟩
  · have hform : LZMA2DictionarySize p.val = (2 + p.val % 2) * 2 ^ (p.val / 2 + 11) := by
      rw [LZMA2DictionarySize, if_neg (by omega)]
      rw [Nat.shiftLeft_eq, Nat.and_one_is_mod]
      rcases Nat.mod_two_eq_zero_or_one p.val with h2 | h2 <;> rw [h2] <;> rfl
    refine ⟨hform, ?_⟩
    rw [checkLZMA2CompressorData, if_neg (by omega), hform]
  · rw [checkLZMA2CompressorData, if_pos h]

/-- Witness for C5 at the concrete bytes 39 and 41. -/
theorem lzma2_dictionary_size_witness :
    ((39 : Nat) < 40 ∧ LZMA2DictionarySize 39 = (2 + 39 % 2) * 2 ^ (39 / 2 + 11)) ∧
      (40 < (41 : Nat) ∧
        checkLZMA2CompressorData 41 = .error .UnsupportedCompression) :=
  ⟨⟨by decide, ((lzma2_dictionary_size ⟨39, by decide⟩).1 (by decide)).1⟩,
   ⟨by decide, (lzma2_dictionary_size ⟨41, by decide⟩).2.2 (by decide)⟩⟩

/-- C7: The `ReuseID` comparison operators form a total order, the
lexicographic order on the tuple `(partition_key, data_size, encrypted,
value)`: for all `a` and `b` exactly one of `a < b`, `a == b`, `a > b`
holds; `a <= b` iff not `a > b`; `a >= b` iff not `a < b`; `a != b` iff
not `a == b`; and `a == b` holds iff all four tuple components are
equal. -/
theorem reuse_id_total_order (a b : ReuseID) :
    ((ReuseID.lt a b = true ∧ ReuseID.eq a b = false ∧ ReuseID.gt a b = false) ∨
      (ReuseID.lt a b = false ∧ ReuseID.eq a b = true ∧ ReuseID.gt a b = false) ∨
      (ReuseID.lt a b = false ∧ ReuseID.eq a b = false ∧ ReuseID.gt a b = true)) ∧
    ReuseID.le a b = !ReuseID.gt a b ∧
    ReuseID.ge a b = !ReuseID.lt a b ∧
    ReuseID.ne a b = !ReuseID.eq a b ∧
    (ReuseID.eq a b = true ↔ a.partition_key = b.partition_key ∧
      a.data_size = b.data_size ∧ a.encrypted = b.encrypted ∧ a.value = b.value) := by
  have hlt : ∀ x y : ReuseID, ReuseID.lt x y = true ↔ ltProp x y := by
    intro x y
    cases hx : x.encrypted <;> cases hy : y.encrypted <;>
      simp [ReuseID.lt, boolLt, ltProp, encNat, hx, hy, Nat.blt_eq]
  have heq : ∀ x y : ReuseID, ReuseID.eq x y = true ↔ eqProp x y := by
    intro x y
    cases hx : x.encrypted <;> cases hy : y.encrypted <;>
      simp [ReuseID.eq, eqProp, encNat, hx, hy, and_assoc]
  refine ⟨?_, rfl, rfl, rfl, ?_⟩
  · simp only [ReuseID.gt, Bool.eq_false_iff, ne_eq, hlt, heq]
    simp only [ltProp, eqProp]
    omega
  · rw [heq]
    cases ha : a.encrypted <;> cases hb : b.encrypted <;>
      simp [eqProp, encNat, ha, hb]

/-- A group that was assigned a `ReuseID` has, by construction, a
plaintext consisting of `data_size` repetitions of `value`; the
plaintext is therefore determined by the `ReuseID`. -/
theorem computeReuseID_replicate (pk : Nat) (enc : Bool) (pt : List Nat)
    (rid : ReuseID) (h : computeReuseID pk enc pt = some rid) :
    pt = List.replicate rid.data_size rid.value := by
  match pt with
  | [] => simp [computeReuseID] at h
  | b :: rest =>
    rw [computeReuseID] at h
    by_cases hall : rest.all (fun x => x == b) = true
    · rw [if_pos hall, Option.some_inj] at h
      subst h
      refine List.eq_replicate_iff.mpr ⟨rfl, ?_⟩
      intro x hx
      rcases List.mem_cons.mp hx with hx | hx
      · exact hx
      · exact beq_iff_eq.mp (List.all_eq_true.mp hall x hx)
    · rw [if_neg hall] at h
      exact absurd h Option.noConfusion

/-- C2: If group A's reuse identifier is found in the shared
`reusable_groups` map — i.e. A is marked as reusing the earlier group B
recorded there — then the output stage returns B's `GroupEntry` for A
verbatim and leaves the output state untouched (no payload bytes are
written for A, the byte count and the map are unchanged), and the
plaintext that produced A's reuse identifier equals the plaintext that
produced B's. -/
theorem dedup_correctness (flag : Bool) (st : OutputState)
    (eA : OutputParametersEntry) (rid : ReuseID) (geB : GroupEntry)
    (pkA pkB : Nat) (encA encB : Bool) (ptA ptB : List Nat)
    (hnone : eA.reused_group = none)
    (hrid : eA.reuse_id = some rid)
    (hlook : List.lookup rid st.reusable_groups = some geB)
    (hA : computeReuseID pkA encA ptA = some rid)
    (hB : computeReuseID pkB encB ptB = some rid) :
    OutputEntry flag st eA = (geB, st) ∧ ptA = ptB := by
  constructor
  · simp only [OutputEntry, TryReuse, hnone, hrid, hlook]
  · rw [computeReuseID_replicate pkA encA ptA rid hA,
      computeReuseID_replicate pkB encB ptB rid hB]

/-- Witness for C2 at a concrete output state, entry and plaintexts. -/
theorem dedup_correctness_witness :
    OutputEntry false witnessOutputState witnessEntryA =
      (witnessGroupEntryB, witnessOutputState) ∧
      [0x55, 0x55, 0x55] = ([0x55, 0x55, 0x55] : List Nat) :=
  dedup_correctness false witnessOutputState witnessEntryA witnessReuseID
    witnessGroupEntryB 0 0 false false [0x55, 0x55, 0x55] [0x55, 0x55, 0x55]
    rfl rfl rfl rfl rfl

end DiscIO
